import Mathlib

set_option maxRecDepth 1000000

/-!
Verification development for the websocket plugin backend
(`src/plugins/websocket/main.ts`): a shallow embedding of its data model
and operations, followed by theorems settling the specified properties.
Machine integers are modelled as `Nat` with explicit `% 2 ^ 32` where the
source relies on 32-bit overflow (the SHA-1 rounds); byte buffers are
`List Nat` of values `< 256`.
-/

namespace WS

/-- UTF-8 encoding of a single Unicode code point, as byte values. -/
def utf8Char (c : Nat) : List Nat :=
  if c < 0x80 then [c]
  else if c < 0x800 then [0xC0 + c / 64, 0x80 + c % 64]
  else if c < 0x10000 then [0xE0 + c / 4096, 0x80 + c / 64 % 64, 0x80 + c % 64]
  else [0xF0 + c / 262144, 0x80 + c / 4096 % 64, 0x80 + c / 64 % 64, 0x80 + c % 64]

/-- UTF-8 bytes of a string (what the node `Buffer` type uses for strings). -/
def strUtf8 (s : String) : List Nat :=
  (s.data.map (fun ch => utf8Char ch.toNat)).flatten

/-- 32-bit left rotation on `Nat` values below `2 ^ 32`. -/
def rotl32 (x b : Nat) : Nat :=
  ((x <<< b) % 2 ^ 32) ||| (x >>> (32 - b))

/-- Big-endian byte decomposition of `n` into `k` bytes. -/
def natToBytesBE (n k : Nat) : List Nat :=
  (List.range k).map (fun i => n / 2 ^ (8 * (k - 1 - i)) % 256)

/-- Group bytes into big-endian 32-bit words (trailing partial group dropped;
the SHA-1 padding below always produces a multiple of 4 bytes). -/
def bytesToWordsBE : List Nat → List Nat
  | a :: b :: c :: d :: rest =>
    (a * 2 ^ 24 + b * 2 ^ 16 + c * 2 ^ 8 + d) :: bytesToWordsBE rest
  | _ => []

/-- The SHA-1 round function (FIPS 180-4, function f_t). -/
def sha1F (t b c d : Nat) : Nat :=
  if t < 20 then (b &&& c) ||| ((b ^^^ 0xFFFFFFFF) &&& d)
  else if t < 40 then b ^^^ c ^^^ d
  else if t < 60 then (b &&& c) ||| (b &&& d) ||| (c &&& d)
  else b ^^^ c ^^^ d

/-- The SHA-1 round constants (FIPS 180-4, constant K_t). -/
def sha1K (t : Nat) : Nat :=
  if t < 20 then 0x5A827999
  else if t < 40 then 0x6ED9EBA1
  else if t < 60 then 0x8F1BBCDC
  else 0xCA62C1D6

/-- Expand a 16-word chunk into the 80-word SHA-1 message schedule. -/
def sha1Schedule (chunk : List Nat) : Array Nat :=
  (List.range 64).foldl
    (fun w i =>
      let t := i + 16
      w.push (rotl32 (w.getD (t - 3) 0 ^^^ w.getD (t - 8) 0 ^^^
        w.getD (t - 14) 0 ^^^ w.getD (t - 16) 0) 1))
    chunk.toArray

/-- One SHA-1 compression step over a 16-word chunk. -/
def sha1Compress (h : Nat × Nat × Nat × Nat × Nat) (chunk : List Nat) :
    Nat × Nat × Nat × Nat × Nat :=
  let w := sha1Schedule chunk
  let r := (List.range 80).foldl
    (fun st t =>
      let (a, b, c, d, e) := st
      let temp := (rotl32 a 5 + sha1F t b c d + e + sha1K t + w.getD t 0) % 2 ^ 32
      (temp, a, rotl32 b 30, c, d))
    (h.1, h.2.1, h.2.2.1, h.2.2.2.1, h.2.2.2.2)
  ((h.1 + r.1) % 2 ^ 32, (h.2.1 + r.2.1) % 2 ^ 32, (h.2.2.1 + r.2.2.1) % 2 ^ 32,
   (h.2.2.2.1 + r.2.2.2.1) % 2 ^ 32, (h.2.2.2.2 + r.2.2.2.2) % 2 ^ 32)

/-- SHA-1 message padding: a `0x80` byte, zeros to 56 mod 64, then the
bit length as a 64-bit big-endian integer. -/
def sha1Pad (msg : List Nat) : List Nat :=
  let len := msg.length
  let zeros := (64 - (len + 9) % 64) % 64
  msg ++ 0x80 :: (List.replicate zeros 0 ++ natToBytesBE (len * 8) 8)

/-- The SHA-1 digest (20 bytes) of a byte sequence. -/
def sha1Bytes (msg : List Nat) : List Nat :=
  let padded := sha1Pad msg
  let final := (List.range (padded.length / 64)).foldl
    (fun h i => sha1Compress h (bytesToWordsBE ((padded.drop (64 * i)).take 64)))
    (0x67452301, 0xEFCDAB89, 0x98BADCFE, 0x10325476, 0xC3D2E1F0)
  natToBytesBE final.1 4 ++ natToBytesBE final.2.1 4 ++ natToBytesBE final.2.2.1 4 ++
    natToBytesBE final.2.2.2.1 4 ++ natToBytesBE final.2.2.2.2 4

/-- The standard base64 alphabet character for a 6-bit value. -/
def b64Char (n : Nat) : Char :=
  "ABCDEFGHIJKLMNOPQRSTUVWXYZabcdefghijklmnopqrstuvwxyz0123456789+/".data.getD n 'A'

/-- Standard base64 encoding with `=` padding. -/
def base64Encode : List Nat → String
  | [] => ""
  | [a] => String.mk [b64Char (a / 4), b64Char (a % 4 * 16)] ++ "=="
  | [a, b] => String.mk [b64Char (a / 4), b64Char (a % 4 * 16 + b / 16), b64Char (b % 16 * 4)] ++ "="
  | a :: b :: c :: rest =>
    String.mk [b64Char (a / 4), b64Char (a % 4 * 16 + b / 16), b64Char (b % 16 * 4 + c / 64),
      b64Char (c % 64)] ++ base64Encode rest

/-- The websocket handshake magic constant (main.ts line 90). -/
def magicConstant : String := "258EAFA5-E914-47DA-95CA-C5AB0DC85B11"

/-- Model of the node incremental hash object produced by `createHash` with `sha1`:
it buffers the bytes fed to it. -/
structure Sha1Builder where
  buffered : List Nat
deriving DecidableEq

/-- `createHash` with `sha1` (main.ts line 92): a fresh empty hash object. -/
def createHashSha1 : Sha1Builder := ⟨[]⟩

/-- `hash.update(s)` (main.ts line 93): feed the UTF-8 bytes of `s`. -/
def Sha1Builder.update (b : Sha1Builder) (s : String) : Sha1Builder :=
  ⟨b.buffered ++ strUtf8 s⟩

/-- `hash.digest` with `base64` (main.ts line 94): the base64 of the SHA-1 digest. -/
def Sha1Builder.digestBase64 (b : Sha1Builder) : String :=
  base64Encode (sha1Bytes b.buffered)

/-- The pure handshake processor of main.ts lines 88-94, applied to an
already extracted key header value: append the magic constant, SHA-1 the
UTF-8 bytes through the incremental hash object, base64 the digest. -/
def computeAcceptToken (nonce : String) : String :=
  (createHashSha1.update (nonce ++ magicConstant)).digestBase64

/-- Modelled from the spec: the Playback Info record (`SongInfo` from
`providers/song-info`, which lives outside the given sources) "with at least
`title: string`, `artist: string`, `elapsedSeconds: number`"; the arbitrary
additional opaque fields are not needed by any claim and are omitted.
JS string lengths are UTF-16 code-unit counts; for every string these claims
touch (ASCII plus the BMP filler glyph) that coincides with `String.length`. -/
structure SongInfo where
  title : String
  artist : String
  elapsedSeconds : Nat
deriving DecidableEq

/-- Lowercase hex digit, as used by the control escapes of JSON.stringify. -/
def hexDigit (n : Nat) : Char :=
  "0123456789abcdef".data.getD n '0'

/-- The JSON.stringify escaping of one character inside a string literal. -/
def jsonEscapeChar (c : Char) : String :=
  if c = '"' then "\\\""
  else if c = '\\' then "\\\\"
  else if c.toNat = 8 then "\\b"
  else if c.toNat = 9 then "\\t"
  else if c.toNat = 10 then "\\n"
  else if c.toNat = 12 then "\\f"
  else if c.toNat = 13 then "\\r"
  else if c.toNat < 32 then "\\u00" ++ String.mk [hexDigit (c.toNat / 16), hexDigit (c.toNat % 16)]
  else String.singleton c

/-- JSON.stringify of a string value. -/
def jsonString (s : String) : String :=
  "\"" ++ String.join (s.data.map jsonEscapeChar) ++ "\""

/-- JSON.stringify of a `SongInfo` record (fields in insertion order). -/
def stringifySongInfo (i : SongInfo) : String :=
  "\x7b\"title\":" ++ jsonString i.title ++ ",\"artist\":" ++ jsonString i.artist ++
    ",\"elapsedSeconds\":" ++ toString i.elapsedSeconds ++ "\x7d"

/-- `JSON.stringify({ songInfo: v })` for `v : SongInfo | undefined`
(main.ts lines 115-117 and 187-189): note that JS omits a property whose
value is `undefined`, so the result for `undefined` is the empty object. -/
def stringifyPayload : Option SongInfo → String
  | none => "\x7b\x7d"
  | some i => "\x7b\"songInfo\":" ++ stringifySongInfo i ++ "\x7d"

/-- `Buffer.alloc(n)` (main.ts line 203): `n` zero bytes. -/
def bufAlloc (n : Nat) : List Nat := List.replicate n 0

/-- `buffer.writeUInt8(value, offset)` (main.ts lines 206-207). -/
def bufWriteUInt8 (buf : List Nat) (value off : Nat) : List Nat :=
  buf.set off (value % 256)

/-- `buffer.writeUInt16BE(value, offset)` (main.ts line 211): big-endian. -/
def bufWriteUInt16BE (buf : List Nat) (value off : Nat) : List Nat :=
  (buf.set off (value / 256 % 256)).set (off + 1) (value % 256)

/-- `buffer.write(string, offset)` (main.ts line 215): writes the UTF-8
bytes of the string at `offset`, truncated to the capacity of the buffer, whose length never changes. -/
def bufWriteStr (buf : List Nat) (s : String) (off : Nat) : List Nat :=
  buf.take off ++ (strUtf8 s).take (buf.length - off) ++ buf.drop (off + (strUtf8 s).length)

/-- `constructReply` (main.ts lines 196-217). The source takes the data
object and calls `JSON.stringify` itself; here the already stringified JSON
is the argument (callers below pass `stringifyPayload ...`), since
`Buffer.byteLength(json)` and `buffer.write(json, ...)` only ever see the
JSON string. -/
def constructReply (json : String) : List Nat :=
  let jsonByteLength := (strUtf8 json).length
  let lengthByteCount := if jsonByteLength < 126 then 0 else 2
  let payloadLength := if lengthByteCount = 0 then jsonByteLength else 126
  let buffer := bufAlloc (2 + lengthByteCount + jsonByteLength)
  let buffer := bufWriteUInt8 buffer 0b10000001 0
  let buffer := bufWriteUInt8 buffer payloadLength 1
  let buffer := if lengthByteCount > 0 then bufWriteUInt16BE buffer jsonByteLength 2 else buffer
  let payloadOffset := if lengthByteCount > 0 then 2 + lengthByteCount else 2
  bufWriteStr buffer json payloadOffset

/-- The `httpServer` object held in the state: all that matters to the
model is whether it is still listening (`close()` flips this). -/
structure HttpServerM where
  listening : Bool
deriving DecidableEq

/-- The module-level `state` object (main.ts lines 16-36). Sockets are kept
as assoc lists `identifier × destroyed?` in insertion order; `lastSongInfo`
holds a reference (an address into the song-info heap below), because the
source stores the very object the caller passed, not a copy. -/
structure WsState where
  ready : Bool
  httpServer : Option HttpServerM
  httpSockets : List (Nat × Bool)
  wsSockets : List (Nat × Bool)
  nextSocketId : Nat
  lastSongInfo : Option Nat
deriving DecidableEq

/-- A heap of `SongInfo` objects: JS objects are mutable references, and
`updateActivity` mutates its argument in place, so the embedding threads an
explicit heap (address → current record) through the stateful operations. -/
def SongHeap : Type := Nat → Option SongInfo

/-- `stop()` (main.ts lines 143-151): if an `httpServer` object exists,
close it and destroy every socket of both registries. Nothing is removed
from either registry, `httpServer` stays set, and `ready` is untouched. -/
def stop (s : WsState) : WsState :=
  match s.httpServer with
  | none => s
  | some _ =>
    { s with
      httpServer := some ⟨false⟩,
      wsSockets := s.wsSockets.map (fun p => (p.1, true)),
      httpSockets := s.httpSockets.map (fun p => (p.1, true)) }

/-- The hangul filler glyph U+3164 (main.ts line 172). -/
def hangulFiller : String := "ㅤ"

/-- JS `String.prototype.repeat`: the count is an arbitrary (here integer)
number and a negative count throws a `RangeError`, modelled as `none`. -/
def jsRepeat (s : String) (n : Int) : Option String :=
  if n < 0 then none else some (String.join (List.replicate n.toNat s))

/-- The padding block of `updateActivity` (main.ts lines 171-182), applied
to the record the argument reference points at. The artist branch repeats
the filler `2 - songInfo.title.length` times — reading the length of `title`
*after* the first branch may have padded it (the in-place mutation), and
using the length of `title` rather than that of `artist`. `none` models the
`RangeError` thrown when that count is negative (title longer than 2
characters and artist shorter than 2). -/
def padSongInfo (i : SongInfo) : Option SongInfo := do
  let i ←
    if i.title.length < 2 then do
      let p ← jsRepeat hangulFiller (2 - (i.title.length : Int))
      pure { i with title := i.title ++ p }
    else pure i
  if i.artist.length < 2 then do
    let p ← jsRepeat hangulFiller (2 - (i.title.length : Int))
    pure { i with artist := i.artist ++ p }
  else pure i

/-- `updateActivity(songInfo)` (main.ts lines 159-192). The argument is the
*reference* `r` of the passed record in the heap `h`. Returns the new heap,
the new state and the list of frames written to the upgraded sockets, in
registry order (`none` models a thrown exception: an invalid reference or
the padding `RangeError`). Following the source line by line: reject when
title and artist are both empty; store the argument reference in
`lastSongInfo`; stop if not ready; pad the record in place (visible through
`lastSongInfo`, which aliases it); write one frame per registered upgraded
socket, built from `state.lastSongInfo`. -/
def updateActivity (r : Nat) (h : SongHeap) (s : WsState) :
    Option (SongHeap × WsState × List (List Nat)) :=
  match h r with
  | none => none
  | some songInfo =>
    if songInfo.title.length = 0 ∧ songInfo.artist.length = 0 then
      some (h, s, [])
    else
      let s := { s with lastSongInfo := some r }
      if s.ready then
        match padSongInfo songInfo with
        | none => none
        | some padded =>
          let h2 : SongHeap := fun n => if n = r then some padded else h n
          some (h2, s,
            s.wsSockets.map (fun _ => constructReply (stringifyPayload (s.lastSongInfo.bind h2))))
      else
        some (h, s, [])

/-- The frames written by an `updateActivity` call (empty when it throws). -/
def updateFrames (r : Nat) (h : SongHeap) (s : WsState) : List (List Nat) :=
  match updateActivity r h s with
  | none => []
  | some (_, _, fr) => fr

/-- The state after an `updateActivity` call (`none` when it throws). -/
def updateStateAfter (r : Nat) (h : SongHeap) (s : WsState) : Option WsState :=
  match updateActivity r h s with
  | none => none
  | some (_, s2, _) => some s2

/-- The heap cell at address `q` after an `updateActivity` call. -/
def updateHeapAfter (r : Nat) (h : SongHeap) (s : WsState) (q : Nat) : Option SongInfo :=
  match updateActivity r h s with
  | none => none
  | some (h2, _, _) => h2 q

/-- The current song info an `updateActivity` call leaves stored: the heap
record that `lastSongInfo` references afterwards. -/
def updateStored (r : Nat) (h : SongHeap) (s : WsState) : Option SongInfo :=
  match updateActivity r h s with
  | none => none
  | some (h2, s2, _) => s2.lastSongInfo.bind h2

/-- The characters the JS `String.prototype.trim` strips: WhiteSpace
(space, tab, vertical tab, form feed, no-break space, BOM and the Unicode
space separators) and LineTerminator code points. -/
def jsWhitespace (c : Char) : Bool :=
  c.toNat ∈ [0x9, 0xA, 0xB, 0xC, 0xD, 0x20, 0xA0, 0x1680, 0x2000, 0x2001, 0x2002, 0x2003,
    0x2004, 0x2005, 0x2006, 0x2007, 0x2008, 0x2009, 0x200A, 0x2028, 0x2029, 0x202F, 0x205F,
    0x3000, 0xFEFF]

/-- JS `String.prototype.trim`: strip leading and trailing whitespace. -/
def jsTrim (s : String) : String :=
  String.mk (((s.data.dropWhile jsWhitespace).reverse.dropWhile jsWhitespace).reverse)

/-- JS coercion of a possibly-absent header into the string concatenation
`key + magic` of main.ts lines 88-90: `undefined + "..."` stringifies the
`undefined` to the literal text `"undefined"`. -/
def jsCoerceUndefined : Option String → String
  | none => "undefined"
  | some s => s

/-- One observable side effect of the upgrade handler, in program order. -/
inductive UpgradeEvent where
  | register (id : Nat)
  | writeHandshake (acceptToken : String)
  | writeFrame (bytes : List Nat)
deriving DecidableEq

/-- The `upgrade` handler (main.ts lines 83-119), as the ordered list of its
side effects plus the state it leaves: allocate the identifier and insert
the socket into the upgraded registry FIRST (lines 84-85); then trim the
key header (if present — an absent header coerces to `"undefined"`), append
the magic constant, hash and base64 it, and write the 101 handshake
response carrying that token (lines 88-102); then write one frame with the
current `lastSongInfo` payload (lines 113-118). The handler performs no
check of the key header whatsoever. -/
def upgradeTrace (keyHeader : Option String) (h : SongHeap) (s : WsState) :
    List UpgradeEvent × WsState :=
  let id := s.nextSocketId
  let s := { s with nextSocketId := id + 1, wsSockets := s.wsSockets ++ [(id, false)] }
  let key := jsCoerceUndefined (keyHeader.map jsTrim) ++ magicConstant
  let responseKey := (createHashSha1.update key).digestBase64
  let frame := constructReply (stringifyPayload (s.lastSongInfo.bind h))
  ([.register id, .writeHandshake responseKey, .writeFrame frame], s)

/-! ## Helper lemmas for the frame codec -/

/-- Writing a string over the zero-filled tail of a buffer that consists of
a header `pre` followed by exactly as many filler bytes as the string has
UTF-8 bytes replaces that tail with the UTF-8 bytes. -/
theorem bufWriteStr_append (pre rest : List Nat) (s : String) (off : Nat)
    (hoff : off = pre.length) (hrest : rest.length = (strUtf8 s).length) :
    bufWriteStr (pre ++ rest) s off = pre ++ strUtf8 s := by
  subst hoff
  unfold bufWriteStr
  rw [List.take_left, List.length_append, hrest, Nat.add_sub_cancel_left, List.take_length,
    ← hrest, ← List.length_append pre rest]
  rw [List.drop_length, List.append_nil]

/-- The two header bytes written by `constructReply` in its short form. -/
theorem header_short (L v : Nat) (hv : v < 256) :
    bufWriteUInt8 (bufWriteUInt8 (bufAlloc (2 + 0 + L)) 0b10000001 0) v 1 =
      [129, v] ++ List.replicate L 0 := by
  have h2L : 2 + 0 + L = L + 2 := by omega
  rw [h2L]
  show (129 : Nat) % 256 :: v % 256 :: List.replicate L 0 = 129 :: v :: List.replicate L 0
  rw [Nat.mod_eq_of_lt hv]

/-- The four header bytes written by `constructReply` in its extended form. -/
theorem header_extended (L : Nat) (h65535 : L ≤ 65535) :
    bufWriteUInt16BE
      (bufWriteUInt8 (bufWriteUInt8 (bufAlloc (2 + 2 + L)) 0b10000001 0) 126 1) L 2 =
      [129, 126, L / 256, L % 256] ++ List.replicate L 0 := by
  have h4L : 2 + 2 + L = L + 4 := by omega
  rw [h4L]
  show (129 : Nat) % 256 :: (126 : Nat) % 256 :: L / 256 % 256 :: L % 256 :: List.replicate L 0
    = 129 :: 126 :: L / 256 :: L % 256 :: List.replicate L 0
  have hdiv : L / 256 < 256 := Nat.div_lt_of_lt_mul (by omega)
  rw [Nat.mod_eq_of_lt hdiv]

/-- C4: the frame codec layout. For a payload of UTF-8 byte length `L`:
if `L < 126` the frame is `0x81`, the literal length byte, then the raw
payload bytes; if `126 ≤ L ≤ 65535` the frame is `0x81`, the marker `126`,
the length as a big-endian 16-bit integer, then the raw payload bytes. -/
theorem constructReply_layout (json : String) :
    ((strUtf8 json).length < 126 →
      constructReply json = 0x81 :: (strUtf8 json).length :: strUtf8 json) ∧
    (126 ≤ (strUtf8 json).length → (strUtf8 json).length ≤ 65535 →
      constructReply json =
        0x81 :: 126 :: (strUtf8 json).length / 256 :: (strUtf8 json).length % 256 :: strUtf8 json ∧
      256 * ((strUtf8 json).length / 256) + (strUtf8 json).length % 256 =
        (strUtf8 json).length) := by
  constructor
  · intro hL
    have hif : (if (strUtf8 json).length < 126 then (0 : Nat) else 2) = 0 := if_pos hL
    simp only [constructReply, hif]
    norm_num
    rw [header_short (strUtf8 json).length (strUtf8 json).length (by omega)]
    exact bufWriteStr_append [129, (strUtf8 json).length] (List.replicate (strUtf8 json).length 0)
      json 2 rfl (by simp)
  · intro h126 h65535
    have hnot : ¬ ((strUtf8 json).length < 126) := by omega
    have hif : (if (strUtf8 json).length < 126 then (0 : Nat) else 2) = 2 := if_neg hnot
    constructor
    · simp only [constructReply, hif]
      norm_num
      rw [header_extended (strUtf8 json).length h65535]
      exact bufWriteStr_append [129, 126, (strUtf8 json).length / 256, (strUtf8 json).length % 256]
        (List.replicate (strUtf8 json).length 0) json 4 rfl (by simp)
    · exact Nat.div_add_mod (strUtf8 json).length 256 ▸ by omega

/-- A 130-byte ASCII payload, exercising the extended length form. -/
def long130 : String := String.mk (List.replicate 130 'a')

/-- C4 witness: both layout branches applied at concrete payloads. -/
theorem constructReply_layout_witness :
    constructReply "\x7b\x7d" = 0x81 :: (strUtf8 "\x7b\x7d").length :: strUtf8 "\x7b\x7d" ∧
    constructReply long130 =
      0x81 :: 126 :: (strUtf8 long130).length / 256 :: (strUtf8 long130).length % 256 ::
        strUtf8 long130 :=
  ⟨(constructReply_layout "\x7b\x7d").1 (by decide),
   (((constructReply_layout long130).2 (by decide) (by decide)).1)⟩

/-! ## The handshake processor -/

/-- Reference construction following the words of the spec (4.1):
"concatenate the key with the fixed protocol magic constant
258EAFA5-E914-47DA-95CA-C5AB0DC85B11, compute a SHA-1 digest of the UTF-8
bytes of the concatenation, and base64-encode the digest". -/
def refAcceptToken (nonce : String) : String :=
  base64Encode (sha1Bytes (strUtf8 (nonce ++ magicConstant)))

/-- C3: for every client-supplied key string the token computed by the code
(through the incremental hash object, main.ts lines 88-94) equals the
reference SHA-1 + base64 construction; being a pure function of the key, the
computation is deterministic: the same key always yields the same token. -/
theorem computeAcceptToken_correct (nonce : String) :
    computeAcceptToken nonce = refAcceptToken nonce ∧
    computeAcceptToken nonce = computeAcceptToken nonce :=
  ⟨rfl, rfl⟩

/-- The embedded SHA-1 + base64 pipeline reproduces the published protocol
test vector (RFC 6455, section 1.3), validating the embedding itself. -/
theorem acceptToken_rfc6455_vector :
    computeAcceptToken "dGhlIHNhbXBsZSBub25jZQ==" = "s3pPLMBiTxaQ9kYGzzhZRbK+xOo=" := by
  decide

/-! ## Shared concrete fixtures -/

/-- A heap with one record at address 0: title `A`, artist `B`. -/
def heapAB : SongHeap := fun n => if n = 0 then some ⟨"A", "B", 0⟩ else none

/-- A heap with one record at address 0: title `AB`, artist `C`. -/
def heapABC : SongHeap := fun n => if n = 0 then some ⟨"AB", "C", 0⟩ else none

/-- A heap with one record at address 0 whose title and artist are empty. -/
def heapEmptyInfo : SongHeap := fun n => if n = 0 then some ⟨"", "", 7⟩ else none

/-- The empty heap: no song-info object exists yet. -/
def heapEmpty : SongHeap := fun _ => none

/-- A ready server with one upgraded socket (id 7) registered. -/
def stOneWs : WsState := ⟨true, some ⟨true⟩, [], [(7, false)], 8, none⟩

/-- A ready server, freshly started: no sockets, no stored info. -/
def stFresh : WsState := ⟨true, some ⟨true⟩, [], [], 0, none⟩

/-- A server that was never started. -/
def stStopped : WsState := ⟨false, none, [], [], 0, none⟩

/-- A started, not-yet-ready server (bind callback still pending). -/
def stNotReady : WsState := ⟨false, some ⟨true⟩, [], [], 0, none⟩

/-! ## The update path

One equation per control-flow branch of `updateActivity`, shared by the
theorems below. -/

/-- Branch: dereferencing an address with no record throws. -/
theorem updateActivity_none_shape (r : Nat) (h : SongHeap) (s : WsState)
    (hr : h r = none) : updateActivity r h s = none := by
  unfold updateActivity
  rw [hr]

/-- Branch: title and artist both empty — reject before storing. -/
theorem updateActivity_emptyinfo_shape (r : Nat) (h : SongHeap) (s : WsState) (info : SongInfo)
    (hr : h r = some info) (ht : info.title.length = 0) (ha : info.artist.length = 0) :
    updateActivity r h s = some (h, s, []) := by
  unfold updateActivity
  rw [hr]
  simp [ht, ha]

/-- Branch: accepted but not ready — store the reference, no broadcast. -/
theorem updateActivity_notready_shape (r : Nat) (h : SongHeap) (s : WsState) (info : SongInfo)
    (hr : h r = some info)
    (hne : ¬ (info.title.length = 0 ∧ info.artist.length = 0))
    (hready : s.ready = false) :
    updateActivity r h s = some (h, { s with lastSongInfo := some r }, []) := by
  unfold updateActivity
  rw [hr]
  simp [hne, hready]

/-- Branch: ready but the padding throws its RangeError. -/
theorem updateActivity_throw_shape (r : Nat) (h : SongHeap) (s : WsState) (info : SongInfo)
    (hr : h r = some info)
    (hne : ¬ (info.title.length = 0 ∧ info.artist.length = 0))
    (hready : s.ready = true)
    (hpad : padSongInfo info = none) :
    updateActivity r h s = none := by
  unfold updateActivity
  rw [hr]
  simp [hne, hready, hpad]

/-- Branch: ready — pad the record in place, store the reference, write one
frame per registered upgraded socket carrying the padded record. -/
theorem updateActivity_broadcast_shape (r : Nat) (h : SongHeap) (s : WsState)
    (info padded : SongInfo)
    (hr : h r = some info)
    (hne : ¬ (info.title.length = 0 ∧ info.artist.length = 0))
    (hready : s.ready = true)
    (hpad : padSongInfo info = some padded) :
    updateActivity r h s =
      some (fun n => if n = r then some padded else h n, { s with lastSongInfo := some r },
        s.wsSockets.map (fun _ => constructReply (stringifyPayload (some padded)))) := by
  unfold updateActivity
  rw [hr]
  simp [hne, hready, hpad]

/-- C7: when title and artist are not both empty and the server is not
ready, `updateActivity` stores the argument reference as `lastSongInfo` and
then stops: the heap is untouched (no padding) and no frame is written. -/
theorem updateActivity_not_ready (r : Nat) (h : SongHeap) (s : WsState) (info : SongInfo)
    (hr : h r = some info)
    (hne : ¬ (info.title.length = 0 ∧ info.artist.length = 0))
    (hready : s.ready = false) :
    updateActivity r h s = some (h, { s with lastSongInfo := some r }, []) :=
  updateActivity_notready_shape r h s info hr hne hready

/-- C7 witness: the not-ready store at a concrete input. -/
theorem updateActivity_not_ready_witness :
    updateActivity 0 heapAB stNotReady =
      some (heapAB, { stNotReady with lastSongInfo := some 0 }, []) :=
  updateActivity_not_ready 0 heapAB stNotReady ⟨"A", "B", 0⟩ rfl (by decide) rfl

/-- C8: when title and artist are both empty, `updateActivity` is a
complete no-op: heap, state (in particular `lastSongInfo`) and registries
are unchanged and no frame is written. -/
theorem updateActivity_empty_noop (r : Nat) (h : SongHeap) (s : WsState) (info : SongInfo)
    (hr : h r = some info)
    (ht : info.title.length = 0) (ha : info.artist.length = 0) :
    updateActivity r h s = some (h, s, []) :=
  updateActivity_emptyinfo_shape r h s info hr ht ha

/-- C8 witness: the empty-info no-op at a concrete input. -/
theorem updateActivity_empty_noop_witness :
    updateActivity 0 heapEmptyInfo stOneWs = some (heapEmptyInfo, stOneWs, []) :=
  updateActivity_empty_noop 0 heapEmptyInfo stOneWs ⟨"", "", 7⟩ rfl rfl rfl

/-- C10: `updateActivity` mutates the record its argument references in
place and stores that same reference: after a broadcasting call, the state
holds the argument reference `r` itself as `lastSongInfo` (not a copy), the
heap cell at `r` — the object of the caller — holds the padded strings, and
the stored current value read through that reference is the padded record. -/
theorem updateActivity_in_place (r : Nat) (h : SongHeap) (s : WsState) (info padded : SongInfo)
    (hr : h r = some info)
    (hne : ¬ (info.title.length = 0 ∧ info.artist.length = 0))
    (hready : s.ready = true)
    (hpad : padSongInfo info = some padded) :
    updateStateAfter r h s = some { s with lastSongInfo := some r } ∧
    updateHeapAfter r h s r = some padded ∧
    updateStored r h s = some padded := by
  have key := updateActivity_broadcast_shape r h s info padded hr hne hready hpad
  refine ⟨?_, ?_, ?_⟩
  · unfold updateStateAfter
    rw [key]
  · unfold updateHeapAfter
    rw [key]
    simp
  · unfold updateStored
    rw [key]
    simp

/-- C10 witness: the in-place mutation observed at a concrete input — the
caller record at address 0 afterwards carries the filler glyph. -/
theorem updateActivity_in_place_witness :
    updateStateAfter 0 heapAB stOneWs = some { stOneWs with lastSongInfo := some 0 } ∧
    updateHeapAfter 0 heapAB stOneWs 0 = some ⟨"A" ++ hangulFiller, "B", 0⟩ ∧
    updateStored 0 heapAB stOneWs = some ⟨"A" ++ hangulFiller, "B", 0⟩ :=
  updateActivity_in_place 0 heapAB stOneWs ⟨"A", "B", 0⟩ ⟨"A" ++ hangulFiller, "B", 0⟩
    rfl (by decide) rfl (by decide)

/-- C1 counterexample: with the server ready and one upgraded socket,
`update` with title `A` and artist `B` does NOT broadcast a record whose
title and artist both have length 2: the record broadcast (the heap cell
`lastSongInfo` references) has artist `B` of length 1, because the artist
pad amount `2 - songInfo.title.length` is computed from the title length
AFTER the title was padded in place to length 2. The second call of the
claim fails too: with title `AB` and artist `C` the artist stays `C`. -/
theorem updateActivity_pad_counterexample :
    ¬ ((updateStored 0 heapAB stOneWs).map (fun i => (i.title.length, i.artist.length)) =
        some (2, 2)) ∧
    ¬ ((updateStored 0 heapABC stOneWs).map (fun i => i.artist.length) = some 2) := by
  decide

/-- C1 amended: `update` with title `A` and artist `B` broadcasts the
record with title right-padded with the filler glyph U+3164 to length
exactly 2 and artist unchanged at `B` (the artist branch repeats the filler
`2 - 2 = 0` times, the title length having already been padded); `update`
with title `AB` and artist `C` broadcasts both fields unchanged. -/
theorem updateActivity_pad_behavior :
    updateStored 0 heapAB stOneWs = some ⟨"A" ++ hangulFiller, "B", 0⟩ ∧
    ("A" ++ hangulFiller).length = 2 ∧
    updateFrames 0 heapAB stOneWs =
      [constructReply (stringifyPayload (some ⟨"A" ++ hangulFiller, "B", 0⟩))] ∧
    updateStored 0 heapABC stOneWs = some ⟨"AB", "C", 0⟩ ∧
    updateFrames 0 heapABC stOneWs =
      [constructReply (stringifyPayload (some ⟨"AB", "C", 0⟩))] := by
  decide

/-! ## The broadcast payload -/

/-- The payload C6 asserts every pushed frame carries: an object keyed
`playbackInfo`, whose value is `null` when nothing has been stored yet. -/
def claimedPayloadC6 : Option SongInfo → String
  | none => "\x7b\"playbackInfo\":null\x7d"
  | some i => "\x7b\"playbackInfo\":" ++ stringifySongInfo i ++ "\x7d"

/-- C6 counterexample: the frame pushed right after a handshake on a fresh
server (nothing stored) is the encoding of the empty object `\x7b\x7d` —
the key is `songInfo`, omitted entirely when the value is undefined — and
that frame differs from the encoding of the claimed
`\x7b"playbackInfo":null\x7d` payload. -/
theorem pushed_payload_counterexample :
    (upgradeTrace (some "dGhlIHNhbXBsZSBub25jZQ==") heapEmpty stFresh).1.getD 2 (.register 0) =
      .writeFrame (constructReply "\x7b\x7d") ∧
    constructReply "\x7b\x7d" ≠ constructReply (claimedPayloadC6 none) := by
  constructor
  · rfl
  · decide

/-- C6 amended: every frame pushed to an upgraded connection — the single
frame pushed immediately after the handshake and each frame broadcast on an
update — carries `JSON.stringify(\x7b songInfo: current \x7d)`: the object is
keyed `songInfo` (not `playbackInfo`), and when no playback info has been
stored yet it is the empty object `\x7b\x7d` (the field is omitted, not null). -/
theorem pushed_payload_is_songInfo :
    (∀ key h s, ∃ tok,
      (upgradeTrace key h s).1 = [.register s.nextSocketId, .writeHandshake tok,
        .writeFrame (constructReply (stringifyPayload (s.lastSongInfo.bind h)))]) ∧
    stringifyPayload none = "\x7b\x7d" ∧
    (∀ r h s f, f ∈ updateFrames r h s →
      f = constructReply (stringifyPayload (updateStored r h s))) := by
  refine ⟨fun key h s => ⟨_, rfl⟩, rfl, fun r h s f hf => ?_⟩
  unfold updateFrames at hf
  cases hhr : h r with
  | none => rw [updateActivity_none_shape r h s hhr] at hf; simp at hf
  | some info =>
    by_cases hempty : info.title.length = 0 ∧ info.artist.length = 0
    · rw [updateActivity_emptyinfo_shape r h s info hhr hempty.1 hempty.2] at hf
      simp at hf
    · cases hready : s.ready with
      | false =>
        rw [updateActivity_notready_shape r h s info hhr hempty hready] at hf
        simp at hf
      | true =>
        cases hpad : padSongInfo info with
        | none =>
          rw [updateActivity_throw_shape r h s info hhr hempty hready hpad] at hf
          simp at hf
        | some padded =>
          rw [updateActivity_broadcast_shape r h s info padded hhr hempty hready hpad] at hf
          unfold updateStored
          rw [updateActivity_broadcast_shape r h s info padded hhr hempty hready hpad]
          simp only [List.mem_map] at hf
          obtain ⟨a, _, rfl⟩ := hf
          simp

/-- C6 witness: the broadcast-payload equation applied at a concrete
broadcasting call. -/
theorem pushed_payload_is_songInfo_witness :
    constructReply (stringifyPayload (some ⟨"A" ++ hangulFiller, "B", 0⟩)) =
      constructReply (stringifyPayload (updateStored 0 heapAB stOneWs)) :=
  pushed_payload_is_songInfo.2.2 0 heapAB stOneWs
    (constructReply (stringifyPayload (some ⟨"A" ++ hangulFiller, "B", 0⟩))) (by decide)

/-! ## Server teardown -/

/-- A server with 3 plain and 2 upgraded connections open (the scenario of
the claim). -/
def stFive : WsState :=
  ⟨true, some ⟨true⟩, [(0, false), (1, false), (2, false)], [(3, false), (4, false)], 5, none⟩

/-- C5 counterexample: after `stop()` on a listening server with open
connections, the registries are NOT empty (every entry survives, merely
marked destroyed) and `ready` is NOT false — the source never deletes the
entries nor resets the flag. -/
theorem stop_counterexample :
    ¬ ((stop stFive).ready = false ∧ (stop stFive).wsSockets = [] ∧
        (stop stFive).httpSockets = []) := by
  decide

/-- C5 amended: `stop()` raises no error and is a no-op when no listening
socket was ever created; it is idempotent; when a listening socket exists it
closes it and forcibly destroys every registered stream of both kinds — but
the registries are not cleared (each keeps its identifiers, the streams now
destroyed) and `ready` is left unchanged rather than set to false. -/
theorem stop_behavior (s : WsState) :
    (s.httpServer = none → stop s = s) ∧
    stop (stop s) = stop s ∧
    (stop s).ready = s.ready ∧
    (s.httpServer ≠ none →
      (stop s).httpServer = some ⟨false⟩ ∧
      (stop s).wsSockets = s.wsSockets.map (fun p => (p.1, true)) ∧
      (stop s).httpSockets = s.httpSockets.map (fun p => (p.1, true))) := by
  cases hsrv : s.httpServer with
  | none =>
    refine ⟨fun _ => ?_, ?_, ?_, fun hne => absurd rfl hne⟩ <;>
      simp [stop, hsrv]
  | some srv =>
    refine ⟨fun hnone => Option.noConfusion hnone, ?_, ?_, fun _ => ⟨?_, ?_, ?_⟩⟩ <;>
      simp [stop, hsrv, List.map_map, Function.comp]

/-- C5 witness: the no-op on a never-started server and the destruction of
all five streams in the scenario state. -/
theorem stop_behavior_witness :
    stop stStopped = stStopped ∧
    (stop stFive).wsSockets = stFive.wsSockets.map (fun p => (p.1, true)) ∧
    (stop stFive).httpSockets = stFive.httpSockets.map (fun p => (p.1, true)) :=
  ⟨(stop_behavior stStopped).1 rfl,
   ((stop_behavior stFive).2.2.2 (by decide)).2.1,
   ((stop_behavior stFive).2.2.2 (by decide)).2.2⟩

/-! ## The upgrade handler -/

/-- C2: the code at the failing inputs. On an upgrade request whose
sec-websocket-key header is absent, or present but the empty string, the
handshake does NOT fail: the connection is registered in the upgraded
registry and kept there, and a 101 response is written whose accept token
is computed from the JS coercion of `undefined` to the literal string
`undefined` (respectively from the empty string) prepended to the magic
constant. -/
theorem upgrade_missing_key_not_rejected :
    (upgradeTrace none heapEmpty stFresh).2.wsSockets = [(0, false)] ∧
    (upgradeTrace none heapEmpty stFresh).1.getD 1 (.register 0) =
      .writeHandshake (computeAcceptToken "undefined") ∧
    (upgradeTrace (some "") heapEmpty stFresh).2.wsSockets = [(0, false)] ∧
    (upgradeTrace (some "") heapEmpty stFresh).1.getD 1 (.register 0) =
      .writeHandshake (computeAcceptToken "") := by
  exact ⟨rfl, rfl, rfl, rfl⟩

/-- The ordering property C9 asserts of the upgrade handler: any insertion
into the upgraded registry (`register`) happens only after the accept token
has been computed and the handshake response written (a `writeHandshake`
event lies strictly earlier in the trace than every `register` event). -/
def registerOnlyAfterHandshake (tr : List UpgradeEvent) : Prop :=
  ∀ (i j id : Nat) (tok : String), tr[i]? = some (UpgradeEvent.register id) →
    tr[j]? = some (UpgradeEvent.writeHandshake tok) → j < i

/-- C9 counterexample: a concrete upgrade produces the trace
`register, writeHandshake, writeFrame` — registration at index 0 strictly
precedes the handshake write at index 1, violating the asserted order. -/
theorem upgrade_order_counterexample :
    ¬ registerOnlyAfterHandshake
      (upgradeTrace (some "dGhlIHNhbXBsZSBub25jZQ==") heapEmpty stFresh).1 := by
  intro hcl
  have h10 : (1 : Nat) < 0 := hcl 0 1 0 _ rfl rfl
  omega

/-- C9 amended: for every upgrade request the handler emits exactly the
trace `register id, writeHandshake token, writeFrame frame` — the upgraded
registry entry is created FIRST, at accept time and unconditionally, before
the accept token is computed and the handshake response written — and the
registry afterwards ends with the new entry. -/
theorem upgrade_registers_before_handshake (key : Option String) (h : SongHeap) (s : WsState) :
    (upgradeTrace key h s).1[0]? = some (.register s.nextSocketId) ∧
    (∃ tok, (upgradeTrace key h s).1[1]? = some (.writeHandshake tok)) ∧
    (∃ fb, (upgradeTrace key h s).1[2]? = some (.writeFrame fb)) ∧
    (upgradeTrace key h s).2.wsSockets = s.wsSockets ++ [(s.nextSocketId, false)] :=
  ⟨rfl, ⟨_, rfl⟩, ⟨_, rfl⟩, rfl⟩

end WS
